import Mathlib

/-!
Verification of the incident-report request/response pipeline of
`esg-monitor.py` (Compliance Sentinel): prompt construction, API invocation,
cost accounting, demo fallback, usage accumulation and form validation.

The Python code is shallowly embedded:
* a `Dict[str, str]`-style field mapping becomes an association list `Data`;
* `requests`' network effects become an explicit `HttpOutcome` argument:
  the parsed JSON response on a completed POST, a timeout, or any other
  exception raised inside the `try` block of `DeepSeekClient.analyze`;
* the ambient wall clock (`datetime.now()`) and `hashlib.md5` become an
  explicit `Env` of opaque-to-the-model strings, since no claim depends on
  their values;
* Python `float` cost arithmetic becomes exact `ℚ` arithmetic, with
  `round(x, 4)` modelled as rounding to the nearest multiple of `1/10000`;
* code that can raise (`_generate_incident_demo` indexes
  `severity.split('-')[1]`) returns `Option`.
-/

set_option maxRecDepth 16384

namespace ESGMonitor

/-- Python `str.split(sep)` for a one-character separator, on the list of
code points: `"".split('-') == ['']`, and separators at the ends produce
empty chunks, exactly as in Python. -/
def splitOnChar (c : Char) : List Char → List (List Char)
  | [] => [[]]
  | a :: as =>
    if a = c then [] :: splitOnChar c as
    else
      match splitOnChar c as with
      | [] => [[a]]
      | g :: gs => (a :: g) :: gs

/-- The whitespace characters Python `str.strip()` removes (ASCII range). -/
def isPySpace (c : Char) : Bool :=
  c = ' ' || c = '\t' || c = '\n' || c = '\x0d' || c = '\x0b' || c = '\x0c'

/-- Python `str.strip()`: drop leading and trailing whitespace. -/
def pyStrip (s : String) : String :=
  String.mk (((s.data.dropWhile isPySpace).reverse.dropWhile isPySpace).reverse)

/-- Python `str.lower()` (code-point-wise, as for the ASCII text involved). -/
def pyLower (s : String) : String :=
  String.mk (s.data.map Char.toLower)

/-- Python slicing `s[:n]` (by code points). -/
def pyTake (n : Nat) (s : String) : String :=
  String.mk (s.data.take n)

/-- The `data: Dict[str, Any]` field mapping of an analysis request, with the
string values the forms put into it. -/
abbrev Data := List (String × String)

/-- Python `data.get(key, default)`. -/
def dget (data : Data) (key dflt : String) : String :=
  (data.lookup key).getD dflt

/-- Substring containment (`needle in haystack` / "appears verbatim"). -/
def strContains (haystack needle : String) : Prop :=
  needle.data <:+: haystack.data

instance (h n : String) : Decidable (strContains h n) :=
  List.decidableInfix n.data h.data

/-- The ambient effects a demo report interpolates: the current time in the
formats the code uses, and the 6-hex-digit uppercase `md5` report-id digest. -/
structure Env where
  nowIso : String
  nowDateTime : String
  nowDate : String
  nowCompact : String
  nextYearDate : String
  md5hex6 : String → String

/-- The result dictionary `DeepSeekClient.analyze` / `get_demo_response`
returns.  The failure dictionaries carry no `"timestamp"` key, hence
`timestamp : Option String`. -/
structure CompletionResult where
  success : Bool
  analysis : String
  tokens_used : Nat
  cost : ℚ
  model : String
  timestamp : Option String
deriving DecidableEq

/-- Python `round(x, 4)`: the nearest multiple of `1/10000`. -/
def round4 (q : ℚ) : ℚ :=
  (round (q * 10000) : ℚ) / 10000

/-- The parts of a completed HTTP response that `analyze` reads: the status
code, `choices[0].message.content`, `usage.total_tokens` and `model` (for the
200 branch), and the body's `error.message` (for the non-200 branch; `none`
models an empty body or a body without that key). -/
structure ApiResponse where
  status : Nat
  content : String
  usageTotalTokens : Option Nat
  modelName : Option String
  errorMessage : Option String
deriving DecidableEq

/-- What the network interaction inside the `try` block of `analyze` did:
a completed POST with a parsed response, a `requests.exceptions.Timeout`, or
any other exception `e` (with `msg = str(e)`). -/
inductive HttpOutcome where
  | response (r : ApiResponse)
  | timeout
  | error (msg : String)
deriving DecidableEq

def system_prompt_incident : String :=
  "You are a Senior HSE (Health, Safety & Environment) Consultant with 15+ years of experience.\n\nProvide a comprehensive incident analysis with this structure:\n\n# INCIDENT ANALYSIS REPORT\n## 1. EXECUTIVE SUMMARY\n## 2. INCIDENT DETAILS\n## 3. ROOT CAUSE ANALYSIS (5 Whys)\n## 4. REGULATORY IMPLICATIONS\n## 5. RISK ASSESSMENT\n## 6. RECOMMENDATIONS (P1/P2/P3)\n## 7. COST-BENEFIT ANALYSIS\n## 8. LESSONS LEARNED\n\nUse professional language with specific regulatory citations."

def system_prompt_audit : String :=
  "You are an ISO Lead Auditor with expertise in ISO 9001, 14001, 45001, and 27001.\n\nProvide a comprehensive audit report with this structure:\n\n# COMPLIANCE AUDIT REPORT\n## 1. EXECUTIVE SUMMARY\n## 2. AUDIT SCOPE & OBJECTIVES\n## 3. METHODOLOGY\n## 4. FINDINGS SUMMARY\n## 5. DETAILED FINDINGS (by standard clause)\n## 6. NON-CONFORMITIES (Major/Minor/Observations)\n## 7. CORRECTIVE ACTION PLAN\n## 8. RECOMMENDATIONS\n## 9. FOLLOW-UP SCHEDULE\n\nUse ISO audit terminology and cite specific clauses."

def system_prompt_policy : String :=
  "You are a Policy & Compliance Director with expertise in regulatory compliance.\n\nProvide a comprehensive policy review with this structure:\n\n# POLICY REVIEW REPORT\n## 1. EXECUTIVE SUMMARY\n## 2. POLICY OVERVIEW\n## 3. REGULATORY ALIGNMENT ANALYSIS\n## 4. GAP ANALYSIS\n## 5. BEST PRACTICES COMPARISON\n## 6. RECOMMENDATIONS\n## 7. IMPLEMENTATION ROADMAP\n## 8. REVIEW SCHEDULE\n\nCite specific regulations and industry standards."

def system_prompt_esg : String :=
  "You are an ESG (Environmental, Social, Governance) Director with expertise in GRI, SASB, and TCFD frameworks.\n\nProvide a comprehensive ESG assessment with this structure:\n\n# ESG PERFORMANCE ASSESSMENT\n## 1. EXECUTIVE SUMMARY\n## 2. ENVIRONMENTAL PERFORMANCE\n## 3. SOCIAL PERFORMANCE\n## 4. GOVERNANCE PERFORMANCE\n## 5. MATERIALITY ASSESSMENT\n## 6. BENCHMARKING & SCORING\n## 7. RECOMMENDATIONS\n## 8. REPORTING ALIGNMENT\n\nUse recognized ESG frameworks and provide scoring."

def user_prompt_incident (data : Data) : String :=
  "INCIDENT ANALYSIS REQUEST\n\n**Incident Description:** " ++
    dget data "description" "N/A" ++
    "\n\n**Details:**\n- Severity: " ++
    dget data "severity" "N/A" ++
    "\n- Location: " ++
    dget data "location" "N/A" ++
    "\n- Date: " ++
    dget data "date" "N/A" ++
    "\n- Time: " ++
    dget data "time" "N/A" ++
    "\n\nProvide comprehensive analysis."

def user_prompt_audit (data : Data) : String :=
  "COMPLIANCE AUDIT REQUEST\n\n**Organization:** " ++
    dget data "organization" "N/A" ++
    "\n**Standards:** " ++
    dget data "standards" "N/A" ++
    "\n**Scope:** " ++
    dget data "scope" "N/A" ++
    "\n**Areas Reviewed:** " ++
    dget data "areas" "N/A" ++
    "\n**Findings:** " ++
    dget data "findings" "N/A" ++
    "\n\nProvide comprehensive audit report."

def user_prompt_policy (data : Data) : String :=
  "POLICY REVIEW REQUEST\n\n**Policy Name:** " ++
    dget data "policy_name" "N/A" ++
    "\n**Policy Type:** " ++
    dget data "policy_type" "N/A" ++
    "\n**Industry:** " ++
    dget data "industry" "N/A" ++
    "\n**Jurisdiction:** " ++
    dget data "jurisdiction" "N/A" ++
    "\n\n**Policy Content:**\n" ++
    dget data "content" "N/A" ++
    "\n\nProvide comprehensive review."

def user_prompt_esg (data : Data) : String :=
  "ESG ASSESSMENT REQUEST\n\n**Organization:** " ++
    dget data "organization" "N/A" ++
    "\n**Industry:** " ++
    dget data "industry" "N/A" ++
    "\n**Reporting Period:** " ++
    dget data "period" "N/A" ++
    "\n**Framework:** " ++
    dget data "framework" "N/A" ++
    "\n\n**Environmental Data:** " ++
    dget data "environmental" "N/A" ++
    "\n**Social Data:** " ++
    dget data "social" "N/A" ++
    "\n**Governance Data:** " ++
    dget data "governance" "N/A" ++
    "\n\nProvide comprehensive ESG assessment."

/-- `DeepSeekClient.get_system_prompt`: the `prompts` dictionary lookup, whose
`.get(prompt_type, prompts["incident"])` defaults to the incident prompt. -/
def get_system_prompt (prompt_type : String) : String :=
  if prompt_type = "incident" then system_prompt_incident
  else if prompt_type = "audit" then system_prompt_audit
  else if prompt_type = "policy" then system_prompt_policy
  else if prompt_type = "esg" then system_prompt_esg
  else system_prompt_incident

/-- `DeepSeekClient.get_user_prompt`: one fixed f-string template per known
type, and the literal fallback for any other `prompt_type`. -/
def get_user_prompt (prompt_type : String) (data : Data) : String :=
  if prompt_type = "incident" then user_prompt_incident data
  else if prompt_type = "audit" then user_prompt_audit data
  else if prompt_type = "policy" then user_prompt_policy data
  else if prompt_type = "esg" then user_prompt_esg data
  else "Please analyze this data."

/-- `DeepSeekClient._generate_incident_demo`.  Python evaluates
`severity.split('-')[1]` inside the f-string; when the split yields fewer
than two chunks that raises `IndexError`, modelled as `none`. -/
def generate_incident_demo (data : Data) (env : Env) : Option String :=
  let description := dget data "description" "workplace incident"
  let severity := dget data "severity" "3 - Serious"
  let location := dget data "location" "Facility"
  match splitOnChar '-' severity.data with
  | _ :: sev1 :: _ => some (
        "# 🛡️ INCIDENT ANALYSIS REPORT\n\n## 1. EXECUTIVE SUMMARY\n\nA " ++
    (pyLower (pyStrip (String.mk sev1))) ++
    " severity incident occurred at " ++
    (location) ++
    ". " ++
    (pyTake 200 description) ++
    "\n\n**Key Findings:**\n- Root Cause: Procedural gap in safety protocols\n- Risk Level: HIGH\n- Immediate Action Required: Yes\n- Estimated Implementation Cost: $22,500\n- Projected Annual Savings: $120,000\n\n## 2. INCIDENT DETAILS\n\n- **Date:** " ++
    (dget data "date" "N/A") ++
    "\n- **Time:** " ++
    (dget data "time" "N/A") ++
    "\n- **Location:** " ++
    (location) ++
    "\n- **Severity:** " ++
    (severity) ++
    "\n- **Reported By:** " ++
    (dget data "reported_by" "Site personnel") ++
    "\n- **Witnesses:** " ++
    (dget data "witnesses" "None listed") ++
    "\n\n## 3. ROOT CAUSE ANALYSIS (5 Whys)\n\n1. **Why did the incident occur?** → Hazardous condition present\n2. **Why was hazard present?** → Maintenance backlog\n3. **Why was there backlog?** → Inadequate prioritization\n4. **Why inadequate prioritization?** → Missing procedures\n5. **Why no procedures?** → **ROOT CAUSE: Systematic gap in safety management**\n\n## 4. REGULATORY IMPLICATIONS\n\n**OSHA 1910.22(a)(1)** - Walking-Working Surfaces\n- Status: Potential non-compliance\n- Citation Risk: High\n- Penalty: $7,000-$14,000\n\n**ISO 45001:2018** - OH&S Management\n- Clause 8.1.2: Gap in hazard elimination\n- Clause 6.1.2.3: Risk assessment needs update\n\n## 5. RISK ASSESSMENT\n\n- **Likelihood:** 4/5 (Probable)\n- **Severity:** 4/5 (Major)\n- **Risk Score:** 16/25 (HIGH RISK)\n\n## 6. RECOMMENDATIONS\n\n### Priority 1 - Immediate (0-24h) - $1,500\n1. Physical containment and barriers\n2. Emergency cleanup/remediation\n3. Safety alert distribution\n\n### Priority 2 - Short-term (1-7 days) - $9,500\n4. Safety audit and inspection\n5. Interim control measures\n6. Training program deployment\n7. Procedure review and update\n\n### Priority 3 - Long-term (1-3 months) - $11,500\n8. Engineering controls installation\n9. Management system enhancement\n10. Safety culture program\n\n**Total Investment: $22,500**\n\n## 7. COST-BENEFIT ANALYSIS\n\n**Implementation Costs:** $22,500\n\n**Annual Savings:**\n- Avoided injuries: $35,000\n- Prevented damage: $25,000\n- Avoided penalties: $10,000\n- Reduced insurance: $12,000\n- Efficiency gains: $18,000\n- Reduced downtime: $10,000\n- **Total: $120,000**\n\n**ROI:** 433% | **Payback:** 2.25 months\n\n## 8. LESSONS LEARNED\n\n1. Procedural gaps have real consequences\n2. Early intervention is cost-effective\n3. Communication is critical\n4. Proactive risk assessment essential\n5. Training is an investment, not a cost\n\n**Report Generated:** " ++
    (env.nowDateTime) ++
    "\n**Report ID:** INC-" ++
    (env.nowCompact) ++
    "-" ++
    (env.md5hex6 description) ++
    "\n")
  | _ => none

/-- `DeepSeekClient._generate_audit_demo` (total). -/
def generate_audit_demo (data : Data) (env : Env) : String :=
  let org := dget data "organization" "Organization"
  let standards := dget data "standards" "ISO 45001:2018"
  "# 📋 COMPLIANCE AUDIT REPORT\n\n## 1. EXECUTIVE SUMMARY\n\nCompliance audit conducted for **" ++
    (org) ++
    "** against **" ++
    (standards) ++
    "** standard(s).\n\n**Audit Results:**\n- Total Findings: 12\n- Major Non-Conformities: 2\n- Minor Non-Conformities: 5\n- Observations: 5\n- Overall Compliance: 78%\n\n**Recommendation:** Certification recommended pending closure of major NCs within 90 days.\n\n## 2. AUDIT SCOPE & OBJECTIVES\n\n**Organization:** " ++
    (org) ++
    "\n**Standards Audited:** " ++
    (standards) ++
    "\n**Audit Type:** " ++
    (dget data "scope" "Full System Audit") ++
    "\n**Date:** " ++
    (env.nowDate) ++
    "\n**Lead Auditor:** Compliance Sentinel AI\n**Audit Team:** 3 auditors\n\n**Objectives:**\n1. Assess conformity to standard requirements\n2. Evaluate effectiveness of management system\n3. Identify improvement opportunities\n4. Verify corrective actions from previous audit\n\n**Areas Covered:** " ++
    (dget data "areas" "All operational areas") ++
    "\n\n## 3. METHODOLOGY\n\n**Audit Approach:**\n- Document review (policies, procedures, records)\n- On-site inspections and walkthroughs\n- Personnel interviews (25 staff members)\n- Process observations\n- Records sampling (150 documents)\n\n**Standards Used:**\n- ISO 45001:2018 - OH&S Management Systems\n- ISO 19011:2018 - Auditing Guidelines\n- ANSI/ASQ Z1.13 - Sampling Procedures\n\n## 4. FINDINGS SUMMARY\n\n| Category | Count | % of Total |\n|----------|-------|------------|\n| Major NC | 2 | 17% |\n| Minor NC | 5 | 42% |\n| Observations | 5 | 41% |\n| **Total** | **12** | **100%** |\n\n**Compliance Score:** 78% (Target: >85%)\n\n## 5. DETAILED FINDINGS\n\n### MAJOR NON-CONFORMITIES\n\n**NC-001: Risk Assessment Process (Clause 6.1.2)**\n- **Finding:** Risk assessments not conducted for new equipment installations\n- **Evidence:** 3 out of 5 new machines installed without documented risk assessment\n- **Impact:** HIGH - Unidentified hazards may exist\n- **Root Cause:** Procedure gap in change management process\n- **Requirement:** ISO 45001:2018 Clause 6.1.2.1\n\n**NC-002: Emergency Preparedness (Clause 8.2)**\n- **Finding:** Emergency drills not conducted as per schedule\n- **Evidence:** Last fire drill conducted 8 months ago (requirement: quarterly)\n- **Impact:** HIGH - Emergency response capability unknown\n- **Root Cause:** Lack of drill coordination and scheduling\n- **Requirement:** ISO 45001:2018 Clause 8.2\n\n### MINOR NON-CONFORMITIES\n\n**NC-003: Training Records (Clause 7.2)**\n- **Finding:** Incomplete training records for 12% of workforce\n- **Evidence:** 15 out of 125 employees missing training completion documentation\n- **Impact:** MEDIUM\n- **Corrective Action:** Update training matrix and complete missing records\n\n**NC-004: Incident Investigation (Clause 10.2)**\n- **Finding:** Incident investigations not completed within required timeframe\n- **Evidence:** 3 out of 8 incidents exceeded 7-day investigation deadline\n- **Impact:** MEDIUM\n- **Corrective Action:** Implement investigation tracking system\n\n**NC-005: Management Review (Clause 9.3)**\n- **Finding:** Management review agenda incomplete\n- **Evidence:** Review did not cover all required inputs per Clause 9.3.2\n- **Impact:** MEDIUM\n- **Corrective Action:** Update review template\n\n**NC-006: Document Control (Clause 7.5)**\n- **Finding:** Obsolete documents found in work area\n- **Evidence:** 2 superseded procedures still in circulation\n- **Impact:** LOW\n- **Corrective Action:** Strengthen document control process\n\n**NC-007: Contractor Management (Clause 8.1.4.2)**\n- **Finding:** Contractor OH&S performance not monitored\n- **Evidence:** No tracking of contractor incidents or near-misses\n- **Impact:** MEDIUM\n- **Corrective Action:** Implement contractor monitoring system\n\n### OBSERVATIONS\n\n**OBS-001:** Internal audit frequency could be increased for high-risk areas\n**OBS-002:** Safety suggestion program has low participation (8%)\n**OBS-003:** PPE inspection records could be more detailed\n**OBS-004:** Near-miss reporting trending downward (possible under-reporting)\n**OBS-005:** Preventive maintenance tracking could be digitized\n\n## 6. NON-CONFORMITIES BY STANDARD CLAUSE\n\n| Clause | Requirement | Major | Minor | Obs |\n|--------|-------------|-------|-------|-----|\n| 6.1.2 | Risk Assessment | 1 | 0 | 0 |\n| 7.2 | Competence | 0 | 1 | 0 |\n| 7.5 | Documented Info | 0 | 1 | 1 |\n| 8.1.4.2 | Contractors | 0 | 1 | 0 |\n| 8.2 | Emergency Prep | 1 | 0 | 1 |\n| 9.3 | Mgmt Review | 0 | 1 | 0 |\n| 10.2 | Incident Inv. | 0 | 1 | 2 |\n\n## 7. CORRECTIVE ACTION PLAN\n\n### Major NC-001: Risk Assessment Process\n\n**Required Actions:**\n1. Conduct risk assessments for 3 machines (by Week 2)\n2. Update change management procedure (by Week 3)\n3. Train relevant personnel (by Week 4)\n4. Verify implementation (by Week 6)\n\n**Responsible:** Safety Manager\n**Target Completion:** 6 weeks\n**Verification Method:** Document review + on-site verification\n\n### Major NC-002: Emergency Preparedness\n\n**Required Actions:**\n1. Schedule and conduct fire drill (by Week 2)\n2. Create annual drill schedule (by Week 3)\n3. Assign drill coordinator role (by Week 3)\n4. Implement drill tracking system (by Week 4)\n\n**Responsible:** Facilities Manager\n**Target Completion:** 4 weeks\n**Verification Method:** Drill records + observation\n\n### Minor NCs (NC-003 through NC-007)\n\n**Timeline:** 8-12 weeks\n**Approach:** Standard CAR process\n**Review:** Monthly progress tracking\n\n## 8. RECOMMENDATIONS\n\n### Immediate Priorities (0-30 days)\n1. Close both major non-conformities\n2. Initiate corrective actions for minor NCs\n3. Assign responsibility and resources\n4. Establish monitoring mechanisms\n\n### Short-term Improvements (1-3 months)\n5. Enhance risk assessment methodology\n6. Digitize safety management processes\n7. Strengthen contractor oversight\n8. Improve safety culture engagement\n\n### Long-term Excellence (3-12 months)\n9. Implement predictive analytics for risks\n10. Achieve ISO 45001 certification\n11. Benchmark against industry leaders\n12. Pursue continuous improvement initiatives\n\n## 9. FOLLOW-UP SCHEDULE\n\n**30-Day Review:**\n- Verify major NC corrective actions initiated\n- Review minor NC progress\n- Assess resource allocation\n\n**60-Day Review:**\n- Verify major NC effectiveness\n- Complete minor NC closures\n- Assess observation responses\n\n**90-Day Closure Audit:**\n- Formal verification of all major NCs\n- Re-assessment of affected areas\n- Certification recommendation decision\n\n**6-Month Surveillance:**\n- Verify sustained compliance\n- Monitor continuous improvement\n- Plan next full audit\n\n## 10. AUDIT CONCLUSION\n\n**Overall Assessment:** The organization demonstrates a functional OH&S management system with opportunities for improvement.\n\n**Strengths:**\n- Strong management commitment\n- Good hazard identification processes\n- Effective incident response\n- Engaged workforce\n\n**Areas for Improvement:**\n- Risk assessment for change management\n- Emergency preparedness scheduling\n- Record keeping consistency\n- Contractor oversight\n\n**Certification Recommendation:** CONDITIONAL - Subject to closure of major non-conformities within 90 days.\n\n**Next Audit:** Scheduled in 12 months (or upon major NC closure)\n\n---\n\n**Report Generated:** " ++
    (env.nowDateTime) ++
    "\n**Report ID:** AUD-" ++
    (env.nowCompact) ++
    "-" ++
    (env.md5hex6 org) ++
    "\n**Lead Auditor:** Compliance Sentinel AI System\n**Audit Standard:** " ++
    (standards) ++
    "\n"

/-- `DeepSeekClient._generate_policy_demo` (total). -/
def generate_policy_demo (data : Data) (env : Env) : String :=
  let policy_name := dget data "policy_name" "Safety Policy"
  let policy_type := dget data "policy_type" "Health & Safety"
  "# 📜 POLICY REVIEW REPORT\n\n## 1. EXECUTIVE SUMMARY\n\nComprehensive review of **" ++
    (policy_name) ++
    "** (" ++
    (policy_type) ++
    ") conducted.\n\n**Review Results:**\n- Regulatory Alignment: 85%\n- Best Practice Compliance: 78%\n- Gaps Identified: 8\n- Recommendations: 15\n- Overall Grade: B+ (Good, needs minor improvements)\n\n**Key Findings:**\n- Policy generally compliant with current regulations\n- Some sections require updating for recent regulatory changes\n- Industry best practices not fully incorporated\n- Implementation guidance could be strengthened\n\n## 2. POLICY OVERVIEW\n\n**Policy Name:** " ++
    (policy_name) ++
    "\n**Policy Type:** " ++
    (policy_type) ++
    "\n**Industry:** " ++
    (dget data "industry" "Manufacturing") ++
    "\n**Jurisdiction:** " ++
    (dget data "jurisdiction" "United States") ++
    "\n**Current Version:** " ++
    (dget data "version" "2.1") ++
    "\n**Last Updated:** " ++
    (dget data "last_updated" "2023-01-15") ++
    "\n**Review Date:** " ++
    (env.nowDate) ++
    "\n\n**Scope:** This policy applies to all employees, contractors, and visitors at all company facilities.\n\n**Purpose:** To establish requirements and responsibilities for maintaining a safe and healthy workplace.\n\n**Policy Owner:** " ++
    (dget data "owner" "HSE Director") ++
    "\n\n## 3. REGULATORY ALIGNMENT ANALYSIS\n\n### Federal Regulations\n\n**OSHA Standards (29 CFR)**\n\n| Regulation | Requirement | Policy Coverage | Gap |\n|------------|-------------|----------------|-----|\n| 1910.132 | PPE Requirements | ✅ Covered | None |\n| 1910.147 | LOTO | ✅ Covered | Minor update needed |\n| 1910.1200 | HazCom | ✅ Covered | None |\n| 1904 | Recordkeeping | ⚠️ Partial | Clarification needed |\n| 1910.38 | Emergency Plans | ✅ Covered | None |\n\n**Overall OSHA Alignment:** 90%\n\n### State/Local Regulations\n\n**California Cal/OSHA (Example):**\n- Heat Illness Prevention: ⚠️ Not addressed (if applicable)\n- Workplace Violence: ⚠️ Limited coverage\n- COVID-19 Requirements: ✅ Recently updated\n\n**State Alignment:** 75%\n\n### Industry Standards\n\n**ANSI/ASSP Standards:**\n- Z10 (OH&S Management): ✅ Well aligned\n- Z15.1 (Fleet Safety): ⚠️ Not covered (if fleet operations exist)\n- Z490.1 (Training): ✅ Covered\n\n**ISO Standards:**\n- ISO 45001:2018: ✅ 85% aligned\n- ISO 14001:2015: ⚠️ Environmental aspects limited\n\n**Industry Alignment:** 80%\n\n## 4. GAP ANALYSIS\n\n### High Priority Gaps\n\n**GAP-001: Emergency Response Procedures**\n- **Issue:** Policy references but doesn't detail emergency procedures\n- **Impact:** HIGH - Regulatory requirement\n- **Regulation:** OSHA 1910.38\n- **Recommendation:** Add detailed emergency response section\n- **Effort:** Medium (2-3 weeks)\n\n**GAP-002: Incident Reporting Timelines**\n- **Issue:** No clear timelines for incident reporting\n- **Impact:** HIGH - Delays in OSHA reporting possible\n- **Regulation:** OSHA 1904.39\n- **Recommendation:** Add specific reporting timelines (8-hour, 24-hour)\n- **Effort:** Low (1 week)\n\n**GAP-003: Contractor Safety Management**\n- **Issue:** Limited guidance on contractor oversight\n- **Impact:** MEDIUM - Liability exposure\n- **Regulation:** OSHA 1910.119(h) (if applicable)\n- **Recommendation:** Expand contractor requirements section\n- **Effort:** Medium (2 weeks)\n\n### Medium Priority Gaps\n\n**GAP-004: Mental Health & Wellbeing**\n- **Issue:** No coverage of workplace mental health\n- **Impact:** MEDIUM - Emerging regulatory focus\n- **Trend:** Increasing state-level requirements\n- **Recommendation:** Add mental health support section\n- **Effort:** Medium (3 weeks)\n\n**GAP-005: Remote Work Safety**\n- **Issue:** Policy doesn't address remote/hybrid work\n- **Impact:** MEDIUM - Compliance gap for remote workers\n- **Recommendation:** Add remote work safety section\n- **Effort:** Low (1-2 weeks)\n\n**GAP-006: Environmental Considerations**\n- **Issue:** Limited environmental protection guidance\n- **Impact:** MEDIUM - Growing stakeholder expectations\n- **Recommendation:** Integrate environmental responsibilities\n- **Effort:** Medium (2-3 weeks)\n\n### Low Priority Gaps\n\n**GAP-007: Technology & Automation Safety**\n- **Issue:** No specific guidance for automated systems\n- **Recommendation:** Add robotics/automation safety section\n- **Effort:** Low (1 week)\n\n**GAP-008: Workplace Violence Prevention**\n- **Issue:** Limited coverage beyond general safety\n- **Recommendation:** Expand workplace violence section\n- **Effort:** Low (1 week)\n\n## 5. BEST PRACTICES COMPARISON\n\n### Industry Leading Practices\n\n**✅ Policy Includes:**\n- Clear accountability structure\n- Employee participation mechanisms\n- Regular safety training requirements\n- Incident investigation procedures\n- Continuous improvement commitment\n\n**⚠️ Policy Missing:**\n- Behavioral-based safety programs\n- Leading indicator metrics\n- Safety leadership competencies\n- Near-miss reporting incentives\n- Predictive analytics for risk\n\n### Benchmark Comparison\n\n| Element | Company | Industry Leader | Gap |\n|---------|---------|----------------|-----|\n| Policy Scope | Good | Excellent | Minor |\n| Accountability | Good | Excellent | Minor |\n| Training Req. | Good | Excellent | Medium |\n| Measurement | Fair | Excellent | Significant |\n| Resources | Good | Excellent | Minor |\n| Culture | Good | Excellent | Medium |\n\n**Overall Benchmark Score:** 78% of industry leaders\n\n## 6. RECOMMENDATIONS\n\n### Category A: Compliance (MUST DO)\n\n**REC-001: Update Emergency Response Section** [HIGH]\n- Add detailed emergency procedures\n- Include evacuation plans reference\n- Specify emergency contact protocols\n- Timeline: 30 days\n\n**REC-002: Clarify Incident Reporting Timelines** [HIGH]\n- Add OSHA reporting requirements (8-hour, 24-hour)\n- Include state-specific requirements\n- Define internal escalation process\n- Timeline: 14 days\n\n**REC-003: Enhance Contractor Safety Requirements** [MEDIUM]\n- Add contractor qualification criteria\n- Include safety performance monitoring\n- Specify oversight responsibilities\n- Timeline: 45 days\n\n### Category B: Best Practice (SHOULD DO)\n\n**REC-004: Add Mental Health Provisions** [MEDIUM]\n- Include mental health support resources\n- Address workplace stress management\n- Define available support programs\n- Timeline: 60 days\n\n**REC-005: Incorporate Remote Work Safety** [MEDIUM]\n- Add home office ergonomics\n- Include remote work safety checklist\n- Define equipment provision requirements\n- Timeline: 45 days\n\n**REC-006: Strengthen Environmental Integration** [MEDIUM]\n- Link safety and environmental objectives\n- Include waste management responsibilities\n- Add environmental incident reporting\n- Timeline: 60 days\n\n**REC-007: Implement Leading Indicators** [MEDIUM]\n- Add proactive safety metrics\n- Include near-miss reporting targets\n- Define safety observation goals\n- Timeline: 90 days\n\n### Category C: Excellence (NICE TO HAVE)\n\n**REC-008: Behavioral-Based Safety Program** [LOW]\n- Add BBS program framework\n- Include observation protocols\n- Define feedback mechanisms\n- Timeline: 120 days\n\n**REC-009: Technology Safety Guidance** [LOW]\n- Add automation safety requirements\n- Include AI/robotics considerations\n- Define human-machine interface standards\n- Timeline: 90 days\n\n**REC-010: Enhanced Training Framework** [LOW]\n- Add competency-based training\n- Include microlearning options\n- Define virtual training standards\n- Timeline: 120 days\n\n## 7. IMPLEMENTATION ROADMAP\n\n### Phase 1: Compliance (0-60 days)\n\n**Month 1:**\n- Week 1-2: Address GAP-002 (Incident Reporting)\n- Week 3-4: Address GAP-001 (Emergency Response)\n\n**Month 2:**\n- Week 5-6: Address GAP-003 (Contractor Management)\n- Week 7-8: Stakeholder review and feedback\n\n**Deliverable:** Compliance-ready policy update v2.2\n\n### Phase 2: Best Practice (60-120 days)\n\n**Month 3:**\n- Address GAP-004 (Mental Health)\n- Address GAP-005 (Remote Work)\n\n**Month 4:**\n- Address GAP-006 (Environmental)\n- Implement REC-007 (Leading Indicators)\n\n**Deliverable:** Industry-aligned policy update v2.3\n\n### Phase 3: Excellence (120-180 days)\n\n**Month 5-6:**\n- Implement remaining recommendations\n- Benchmark against industry leaders\n- Continuous improvement planning\n\n**Deliverable:** Best-in-class policy v3.0\n\n## 8. REVIEW SCHEDULE\n\n### Ongoing Monitoring\n\n**Quarterly Reviews:**\n- Regulatory update scanning\n- Incident trend analysis\n- Effectiveness metrics review\n\n**Annual Full Review:**\n- Comprehensive regulatory alignment check\n- Industry benchmark comparison\n- Stakeholder feedback integration\n- Full policy refresh\n\n**Trigger-Based Reviews:**\n- Significant regulatory changes\n- Major incidents or trends\n- Organizational restructuring\n- New technology/processes\n\n### Next Scheduled Review\n\n**Date:** " ++
    (env.nextYearDate) ++
    "\n**Type:** Full policy review\n**Responsibility:** HSE Director\n**Resources Required:** 40 hours\n\n## 9. APPROVAL & DISTRIBUTION\n\n**Review Completed By:** Compliance Sentinel AI\n**Review Date:** " ++
    (env.nowDate) ++
    "\n\n**Recommended Approvers:**\n- HSE Director (Policy Owner)\n- Legal Counsel (Regulatory Compliance)\n- HR Director (Employee Relations)\n- Operations Director (Implementation)\n- Executive Leadership (Strategic Alignment)\n\n**Distribution:**\n- All employees (via LMS/intranet)\n- New hire orientation\n- Contractor onboarding\n- Supplier qualification\n- Regulatory submissions (as needed)\n\n## 10. CONCLUSION\n\nThe **" ++
    (policy_name) ++
    "** is fundamentally sound and demonstrates good regulatory compliance (85%) and reasonable alignment with industry best practices (78%).\n\n**Strengths:**\n- Clear structure and accountability\n- Good regulatory foundation\n- Employee participation focus\n- Regular training requirements\n\n**Improvement Areas:**\n- Emergency response detail\n- Incident reporting timelines\n- Contractor oversight\n- Emerging topics (mental health, remote work)\n- Leading indicator metrics\n\n**Overall Grade: B+ (Good)**\n\nWith implementation of the recommended updates, the policy can achieve **A-grade (Excellent)** status within 6 months.\n\n**Risk Assessment:** Current gaps present MEDIUM organizational risk. Compliance gaps (GAP-001, GAP-002) should be addressed immediately.\n\n**Investment Required:**\n- Internal resources: 120 hours\n- External consultation: $5,000-$8,000 (if needed)\n- Training/communication: $3,000-$5,000\n- **Total: $8,000-$13,000**\n\n**Expected Benefits:**\n- Enhanced regulatory compliance\n- Reduced liability exposure\n- Improved safety culture\n- Better stakeholder confidence\n- Industry leadership positioning\n\n---\n\n**Report Generated:** " ++
    (env.nowDateTime) ++
    "\n**Report ID:** POL-" ++
    (env.nowCompact) ++
    "-" ++
    (env.md5hex6 policy_name) ++
    "\n**Reviewer:** Compliance Sentinel AI System\n"

/-- `DeepSeekClient._generate_esg_demo` (total). -/
def generate_esg_demo (data : Data) (env : Env) : String :=
  let org := dget data "organization" "Organization"
  let industry := dget data "industry" "Manufacturing"
  "# 🌱 ESG PERFORMANCE ASSESSMENT\n\n## 1. EXECUTIVE SUMMARY\n\nESG assessment conducted for **" ++
    (org) ++
    "** in the **" ++
    (industry) ++
    "** sector.\n\n**Overall ESG Score: 72/100 (B Rating)**\n\n| Pillar | Score | Grade | Trend |\n|--------|-------|-------|-------|\n| Environmental | 68/100 | C+ | → Stable |\n| Social | 75/100 | B | ↗ Improving |\n| Governance | 78/100 | B+ | ↗ Improving |\n\n**Key Findings:**\n- Strong governance framework in place\n- Social performance above industry average\n- Environmental performance needs improvement\n- Climate transition planning required\n- Good stakeholder engagement practices\n\n**Recommendation:** Focus on environmental performance improvements and climate strategy to achieve A-rating.\n\n## 2. ENVIRONMENTAL PERFORMANCE (Score: 68/100)\n\n### Climate Change & Emissions\n\n**Greenhouse Gas Emissions:**\n- **Scope 1:** 15,000 tCO2e (Direct emissions)\n- **Scope 2:** 8,500 tCO2e (Purchased energy)\n- **Scope 3:** 42,000 tCO2e (Value chain) - Limited data\n- **Total:** 65,500 tCO2e\n- **Intensity:** 12.5 tCO2e per $M revenue\n\n**Performance vs Targets:**\n- Current vs. 2020 Baseline: -8% (Target: -15%) ⚠️\n- 2030 Target: -50% (Science-based target needed)\n- 2050 Goal: Net Zero (pathway unclear)\n\n**Score: 65/100** - Behind reduction targets\n\n### Energy Management\n\n**Energy Consumption:**\n- Total: 185,000 MWh annually\n- Renewable: 28% (52,000 MWh) ↗\n- Non-renewable: 72% (133,000 MWh)\n- Energy Intensity: 3.5 MWh per $M revenue\n\n**Initiatives:**\n- Solar installation: 15% of facilities\n- LED retrofit: 75% complete\n- Energy management system: ISO 50001 (2 sites)\n\n**Score: 70/100** - Good progress, increase renewables\n\n### Water Stewardship\n\n**Water Usage:**\n- Total withdrawal: 450,000 m³/year\n- Water stressed regions: 35% of operations ⚠️\n- Recycled/reused: 15%\n- Discharge quality: 100% compliant\n\n**Score: 66/100** - Address water-stressed locations\n\n### Waste & Circular Economy\n\n**Waste Generation:**\n- Total waste: 8,500 tonnes/year\n- Hazardous: 450 tonnes (5.3%)\n- Recycling rate: 58%\n- Landfill diversion: 72%\n- Zero waste sites: 2 out of 12\n\n**Score: 70/100** - Good recycling, increase circularity\n\n### Biodiversity & Land Use\n\n**Impact Assessment:**\n- Facilities in sensitive areas: 1 site\n- Biodiversity action plans: Limited\n- Land restoration: Not applicable\n- Habitat protection: Basic measures\n\n**Score: 60/100** - Strengthen biodiversity strategy\n\n### Environmental Compliance\n\n**Regulatory Performance:**\n- Environmental violations: 2 (minor)\n- Fines/penalties: $15,000\n- Spill incidents: 1 (contained, no impact)\n- Audit findings: 8 (all closed)\n\n**Score: 75/100** - Generally compliant\n\n## 3. SOCIAL PERFORMANCE (Score: 75/100)\n\n### Employee Health & Safety\n\n**Safety Performance:**\n- LTIFR (Lost Time Injury Frequency): 0.8 (Industry avg: 1.2) ✅\n- TRIFR (Total Recordable Injury): 2.1 (Industry avg: 3.5) ✅\n- Fatalities: 0\n- Near-miss reporting: 450 reports (strong culture)\n- Safety training hours: 12,500 hours/year\n\n**Score: 85/100** - Excellent safety performance\n\n### Labor Practices\n\n**Workforce Demographics:**\n- Total employees: 2,500\n- Temporary/contract: 18%\n- Union representation: 45%\n- Turnover rate: 12% (Industry: 15%) ✅\n- Employee satisfaction: 72%\n\n**Diversity & Inclusion:**\n- Women in workforce: 32%\n- Women in leadership: 28%\n- Ethnic diversity: 42%\n- Pay equity ratio: 0.98 (M/F)\n- D&I training: 95% completion\n\n**Score: 78/100** - Good, improve gender diversity in leadership\n\n### Human Rights\n\n**Human Rights Due Diligence:**\n- Policy in place: ✅\n- Supplier assessments: 65% of spend\n- Grievance mechanism: ✅ Active\n- Child labor risk: Low (verified)\n- Forced labor risk: Low (verified)\n- Modern Slavery Statement: ✅ Published\n\n**Score: 80/100** - Strong framework\n\n### Community Engagement\n\n**Community Investment:**\n- Community spend: $850,000 (0.5% of profit)\n- Employee volunteering: 3,200 hours\n- Local hiring: 78%\n- Community complaints: 8 (all resolved)\n- Stakeholder satisfaction: 76%\n\n**Score: 72/100** - Good engagement, increase investment\n\n### Supply Chain Responsibility\n\n**Supplier Management:**\n- Supplier code of conduct: ✅ 100% coverage\n- Supplier audits: 45% (target: 80%)\n- Critical suppliers assessed: 90%\n- Supplier ESG training: 60%\n- Conflict minerals: Compliant (3TG)\n\n**Score: 70/100** - Increase audit coverage\n\n### Product Responsibility\n\n**Product Safety & Quality:**\n- Product recalls: 0\n- Customer complaints: <0.1%\n- Product certifications: ISO 9001\n- Sustainable products: 35% of revenue\n- Product lifecycle assessments: 15% of products\n\n**Score: 75/100** - Strong quality, expand sustainability\n\n## 4. GOVERNANCE PERFORMANCE (Score: 78/100)\n\n### Board Composition & Independence\n\n**Board Structure:**\n- Board size: 9 directors\n- Independent directors: 67% ✅\n- Women on board: 33% (Target: 40%)\n- Average tenure: 6 years\n- Board diversity: Improving\n\n**Committees:**\n- Audit Committee: ✅ Independent chair\n- Compensation Committee: ✅\n- Sustainability Committee: ✅ (Added 2023)\n\n**Score: 80/100** - Strong independence\n\n### Business Ethics\n\n**Ethics & Compliance:**\n- Code of conduct: ✅ 100% training\n- Anti-corruption policy: ✅\n- Whistleblower hotline: ✅ Active\n- Ethics training: 98% completion\n- Violations reported: 12 (all investigated)\n- Disciplinary actions: 3\n\n**Score: 82/100** - Excellent ethics culture\n\n### Risk Management\n\n**ERM Framework:**\n- Risk management system: ✅ Mature\n- Climate risk assessment: ⚠️ Limited\n- Cybersecurity program: ✅ Strong\n- Business continuity: ✅ Tested\n- Insurance coverage: ✅ Adequate\n\n**Score: 75/100** - Strengthen climate risk\n\n### Stakeholder Engagement\n\n**Engagement Practices:**\n- Shareholder engagement: Regular\n- Annual materiality assessment: ✅\n- Stakeholder advisory panel: ✅\n- Community consultation: Active\n- Investor ESG calls: Quarterly\n\n**Score: 78/100** - Good engagement\n\n### Transparency & Reporting\n\n**Disclosure Quality:**\n- Sustainability report: ✅ Annual (GRI Standards)\n- TCFD alignment: Partial (50%)\n- SASB disclosure: ⚠️ Not yet\n- CDP reporting: Climate (B), Water (B-)\n- External assurance: Limited\n\n**Score: 70/100** - Improve disclosure frameworks\n\n### Executive Compensation\n\n**Compensation Structure:**\n- ESG metrics in compensation: 15% weighting\n- Clawback provisions: ✅\n- Say-on-pay approval: 92%\n- CEO pay ratio: 85:1 (Industry: 120:1) ✅\n- Long-term incentives: 60% of package\n\n**Score: 80/100** - Well structured\n\n## 5. MATERIALITY ASSESSMENT\n\n**Top Material Topics (Stakeholder Impact × Business Impact):**\n\n### High Priority (Score >8.0)\n1. **Climate Change** (9.2) - Emissions reduction & transition\n2. **Employee Safety** (9.0) - Zero harm culture\n3. **Business Ethics** (8.8) - Compliance & integrity\n4. **Energy Management** (8.5) - Renewable transition\n5. **Diversity & Inclusion** (8.3) - Workforce equity\n\n### Medium Priority (Score 6.0-8.0)\n6. **Water Management** (7.8)\n7. **Waste & Circularity** (7.5)\n8. **Supply Chain Labor** (7.2)\n9. **Community Impact** (7.0)\n10. **Product Sustainability** (6.8)\n\n### Monitoring (Score <6.0)\n11. Biodiversity (5.8)\n12. Political Contributions (5.2)\n13. Tax Transparency (5.0)\n\n## 6. BENCHMARKING & SCORING\n\n### Industry Comparison\n\n| Metric | Company | Industry Avg | Best-in-Class | Gap |\n|--------|---------|-------------|---------------|-----|\n| Overall ESG | 72 | 68 | 85 | -13 |\n| Environmental | 68 | 65 | 82 | -14 |\n| Social | 75 | 70 | 88 | -13 |\n| Governance | 78 | 72 | 90 | -12 |\n\n**Position:** Above average, gap to leaders\n\n### Rating Agency Comparison\n\n**Current Ratings:**\n- MSCI ESG: A (Industry leader: AA)\n- Sustainalytics: 22.5 (Medium risk)\n- CDP Climate: B (Target: A)\n- CDP Water: B- (Target: A-)\n- EcoVadis: Silver (Target: Gold)\n\n**Rating Outlook:** Stable to positive with improvements\n\n### SDG Alignment\n\n**Primary SDG Contributions:**\n- SDG 7 (Clean Energy): Moderate impact\n- SDG 8 (Decent Work): Strong impact\n- SDG 12 (Responsible Consumption): Moderate impact\n- SDG 13 (Climate Action): Limited impact ⚠️\n\n## 7. RECOMMENDATIONS\n\n### Priority 1: Environmental Acceleration (0-12 months)\n\n**REC-001: Science-Based Targets Initiative (SBTi)**\n- Set validated science-based emissions targets\n- Develop detailed decarbonization roadmap\n- Allocate capital for transition ($15M)\n- **Impact:** Improve Environmental score by 10 points\n\n**REC-002: Renewable Energy Acceleration**\n- Target: 50% renewable by 2025 (from 28%)\n- Execute 20MW solar installation program\n- Sign virtual PPAs for 30,000 MWh\n- **Investment:** $12M | **Payback:** 6 years\n\n**REC-003: Water Stewardship in Stressed Regions**\n- Implement water recycling (target: 40%)\n- Conduct water risk assessments\n- Set site-specific reduction targets\n- **Investment:** $3M\n\n### Priority 2: Social Excellence (6-18 months)\n\n**REC-004: Diversity Leadership Target**\n- Women in leadership: 40% by 2026\n- Launch mentorship program\n- Strengthen inclusive hiring\n- **Investment:** $500K/year\n\n**REC-005: Supply Chain Transparency**\n- Increase supplier audits to 80%\n- Implement blockchain traceability (pilot)\n- Publish supplier diversity metrics\n- **Investment:** $1.5M\n\n### Priority 3: Governance Enhancement (12-24 months)\n\n**REC-006: Climate Governance**\n- Full TCFD alignment by 2025\n- Enhance climate risk disclosure\n- Scenario analysis (1.5°C, 2°C, 3°C)\n- **Investment:** $250K\n\n**REC-007: ESG Reporting Framework**\n- Adopt SASB standards\n- Obtain limited assurance on key metrics\n- Enhance digital ESG data platform\n- **Investment:** $400K\n\n**REC-008: Increase ESG Compensation Weighting**\n- Increase ESG metrics to 25% (from 15%)\n- Add specific climate targets\n- Include diversity metrics\n- **Investment:** Neutral\n\n## 8. REPORTING ALIGNMENT\n\n### Current Framework Usage\n\n**Global Reporting Initiative (GRI):**\n- Coverage: 85% of GRI Standards\n- Quality: Good\n- Gap: Limited sector-specific disclosures\n\n**Task Force on Climate-related Financial Disclosures (TCFD):**\n- Governance: ✅ Fully aligned\n- Strategy: ⚠️ Partial (50%)\n- Risk Management: ✅ Fully aligned\n- Metrics & Targets: ⚠️ Partial (60%)\n- **Overall:** 75% aligned\n\n**Sustainability Accounting Standards Board (SASB):**\n- Coverage: 40% of industry-specific metrics\n- **Recommendation:** Adopt fully by 2025\n\n**United Nations Global Compact:**\n- Status: Signatory ✅\n- Communication on Progress: Published annually\n\n### Recommended Enhancements\n\n1. **Full TCFD compliance** (2025)\n2. **SASB adoption** (2025)\n3. **Limited assurance** on emissions, safety, diversity (2025)\n4. **Reasonable assurance** on emissions (2027)\n5. **Integrated reporting** (2026)\n\n## 9. ACTION PLAN & TIMELINE\n\n### Year 1 (2024-2025)\n\n**Q1-Q2:**\n- Launch SBTi commitment process\n- Begin renewable energy procurement\n- Initiate water stewardship program\n- Enhance supplier audit program\n\n**Q3-Q4:**\n- Submit science-based targets for validation\n- Complete TCFD strategy disclosure\n- Achieve 40% renewable energy\n- Launch diversity mentorship program\n\n**Investment:** $18M\n**Expected ESG Score:** 75 (+3)\n\n### Year 2 (2025-2026)\n\n**Full Year:**\n- Achieve SBTi validation\n- 50% renewable energy\n- SASB reporting implementation\n- 40% women in leadership\n- Limited assurance on key metrics\n\n**Investment:** $12M\n**Expected ESG Score:** 78 (+6 from baseline)\n\n### Year 3 (2026-2027)\n\n**Full Year:**\n- 65% renewable energy\n- 40% water recycling\n- Integrated reporting\n- Industry ESG leadership\n\n**Investment:** $10M\n**Expected ESG Score:** 82 (+10 from baseline, A-rating)\n\n## 10. FINANCIAL IMPLICATIONS\n\n### Investment Summary\n\n| Category | 3-Year Investment | Annual Benefit | Payback |\n|----------|------------------|----------------|---------|\n| Renewable Energy | $24M | $3.5M | 6.9 years |\n| Energy Efficiency | $8M | $2.2M | 3.6 years |\n| Water Management | $4M | $0.8M | 5.0 years |\n| Social Programs | $3M | (Intangible) | N/A |\n| Governance/Reporting | $2M | (Risk reduction) | N/A |\n| **Total** | **$41M** | **$6.5M** | **6.3 years** |\n\n### Business Value\n\n**Tangible Benefits:**\n- Energy cost savings: $6.5M/year\n- Reduced regulatory risk: $2M/year\n- Insurance premium reduction: $500K/year\n- Improved resource efficiency: $1.5M/year\n\n**Intangible Benefits:**\n- Enhanced brand reputation\n- Better talent attraction/retention\n- Improved investor perception\n- Reduced long-term transition risks\n- License to operate in restricted markets\n\n**ESG-Linked Financing:**\n- Potential 0.25% interest rate reduction on sustainability-linked loans\n- Value on $500M debt: $1.25M/year savings\n\n### Risk Mitigation Value\n\n- Regulatory compliance risk: $5M potential exposure\n- Reputational risk: $10M+ potential exposure\n- Climate transition risk: $50M+ potential exposure\n- Stakeholder activism risk: Moderate\n\n**Total Risk Mitigation Value:** $65M+ over 10 years\n\n## CONCLUSION\n\n**" ++
    (org) ++
    "** demonstrates solid ESG performance with a score of 72/100 (B rating), positioning above industry average but with clear opportunities for leadership.\n\n**Key Strengths:**\n- Strong safety culture and performance\n- Robust governance framework\n- Good stakeholder engagement\n- Ethical business practices\n\n**Critical Improvement Areas:**\n- Climate strategy and emissions reduction\n- Renewable energy transition\n- Enhanced environmental disclosure\n- Supplier sustainability oversight\n\n**Path to Excellence:**\nWith focused investment of $41M over 3 years, the organization can achieve:\n- **A-rating (82/100)** ESG score\n- Industry leadership position\n- Enhanced stakeholder value\n- Reduced long-term risks\n- Competitive advantage in ESG-conscious markets\n\n**Recommended Next Steps:**\n1. Executive leadership review and approval\n2. SBTi commitment letter (immediate)\n3. Capital allocation for renewables (Q1)\n4. Enhanced disclosure roadmap (Q2)\n5. Quarterly progress monitoring\n\n---\n\n**Report Generated:** " ++
    (env.nowDateTime) ++
    "\n**Report ID:** ESG-" ++
    (env.nowCompact) ++
    "-" ++
    (env.md5hex6 org) ++
    "\n**Assessment Framework:** GRI, TCFD, SASB, MSCI ESG\n**Reporting Period:** " ++
    (dget data "period" "FY 2024") ++
    "\n**Industry Sector:** " ++
    (industry) ++
    "\n"

/-- `DeepSeekClient.get_demo_response`: pick the generator by `prompt_type`
(the literal generic report otherwise) and wrap it in the success
dictionary with `tokens_used = len(report) // 4` and the fixed cost `0.01`.
`none` models the `IndexError` the incident generator can raise, which no
caller catches. -/
def get_demo_response (prompt_type : String) (data : Data) (env : Env) :
    Option CompletionResult :=
  (if prompt_type = "incident" then generate_incident_demo data env
   else if prompt_type = "audit" then some (generate_audit_demo data env)
   else if prompt_type = "policy" then some (generate_policy_demo data env)
   else if prompt_type = "esg" then some (generate_esg_demo data env)
   else some "# Analysis Report\n\nDemo report generated.").map fun report =>
    { success := true
      analysis := report
      tokens_used := report.length / 4
      cost := 1/100
      model := "deepseek-chat-demo"
      timestamp := some env.nowIso }

/-- The live branch of `DeepSeekClient.analyze` (the body of its `try`
block), as a function of the network outcome: on HTTP 200 it takes
`choices[0].message.content`, `usage.get("total_tokens", len(analysis) // 4)`
and `cost = round((tokens / 1_000_000) * 0.21, 4)`; on any other status, on
timeout and on any other exception it builds the corresponding failure
dictionary.  The request payload (`model`, `messages`, `max_tokens`,
`temperature`) does not influence the returned value and is not modelled. -/
def live_result (env : Env) : HttpOutcome → CompletionResult
  | .response r =>
      if r.status = 200 then
        let tokens := r.usageTotalTokens.getD (r.content.length / 4)
        { success := true
          analysis := r.content
          tokens_used := tokens
          cost := round4 ((tokens : Rat) / 1000000 * (21/100))
          model := r.modelName.getD "deepseek-chat"
          timestamp := some env.nowIso }
      else
        { success := false
          analysis := "API Error: " ++ r.errorMessage.getD ("HTTP " ++ toString r.status)
          tokens_used := 0
          cost := 0
          model := "deepseek-chat"
          timestamp := none }
  | .timeout =>
      { success := false
        analysis := "Request timed out. Please try again."
        tokens_used := 0
        cost := 0
        model := "deepseek-chat"
        timestamp := none }
  | .error msg =>
      { success := false
        analysis := "Error: " ++ msg
        tokens_used := 0
        cost := 0
        model := "deepseek-chat"
        timestamp := none }

/-- `DeepSeekClient.analyze`.  The demo branch is taken when
`not self.api_key or self.api_key == "demo"` (the key is `None`, empty, or
the sentinel); it is decided before the `try` block, so the network outcome
is never consulted there.  Otherwise the live branch runs on the outcome. -/
def analyze (api_key : Option String) (prompt_type : String) (data : Data)
    (env : Env) (outcome : HttpOutcome) : Option CompletionResult :=
  if api_key.getD "" = "" ∨ api_key.getD "" = "demo" then
    get_demo_response prompt_type data env
  else
    some (live_result env outcome)


/-- The `usage_stats` session counters (`total_reports`, `total_cost`,
`total_tokens`), initialised to zeroes by `init_session_state`. -/
structure UsageStats where
  total_reports : Nat
  total_cost : Rat
  total_tokens : Nat
deriving DecidableEq

/-- The counter update of `render_analysis_result` (lines 2088-2110): on a
failed result the function returns before touching the counters; on success
it increments `total_reports` by one and adds the result cost and tokens. -/
def record_result (s : UsageStats) (r : CompletionResult) : UsageStats :=
  if r.success then
    { total_reports := s.total_reports + 1
      total_cost := s.total_cost + r.cost
      total_tokens := s.total_tokens + r.tokens_used }
  else s

/-- Recording a sequence of results, one `render_analysis_result` at a time. -/
def record_all (s : UsageStats) (rs : List CompletionResult) : UsageStats :=
  rs.foldl record_result s

/-- Componentwise order on the usage counters ("no counter decreases"). -/
def statsLe (a b : UsageStats) : Prop :=
  a.total_reports ≤ b.total_reports ∧ a.total_cost ≤ b.total_cost ∧
    a.total_tokens ≤ b.total_tokens

/-- What `render_incident_form` hands back to `main`: the preview marker
dictionary or the submitted field dictionary. -/
inductive FormResult where
  | preview
  | submitted (fd : Data)
deriving DecidableEq

/-- The submission logic of `render_incident_form`: which button was pressed,
the session flags, and the widget values.  Mirrors the code order: the
preview button short-circuits; on submit, a missing key outside demo mode,
a description empty or shorter than 20 characters after stripping, or an
empty location, each return `None` (after `st.error`/`st.warning`); otherwise
the field dictionary is returned.  `api_key = none` models the session
default `None`. -/
def render_incident_form (preview submit demo_mode : Bool)
    (api_key : Option String)
    (description severity location date time reported_by witnesses : String) :
    Option FormResult :=
  if preview then some .preview
  else if submit then
    if !demo_mode && api_key.getD "" = "" then none
    else if description = "" ∨ (pyStrip description).length < 20 then none
    else if location = "" then none
    else some (.submitted
      [("type", "incident"), ("description", description),
       ("severity", severity), ("location", location), ("date", date),
       ("time", time), ("reported_by", reported_by), ("witnesses", witnesses)])
  else none

/-- What `main` (lines 2306-2324) does with the form value: nothing when the
form returned `None`, a demo preview for the preview marker, and a
`client.analyze(prompt_type, form_data)` call otherwise. -/
inductive MainAction where
  | noCall
  | previewCall
  | analyzeCall (prompt_type : String) (fd : Data)
deriving DecidableEq

/-- The dispatch in `main` on the value returned by the form. -/
def main_process (prompt_type : String) (form : Option FormResult) :
    MainAction :=
  match form with
  | none => .noCall
  | some .preview => .previewCall
  | some (.submitted fd) => .analyzeCall prompt_type fd

/-- A fixed ambient environment for concrete evaluations. -/
def env0 : Env :=
  { nowIso := "2025-01-01T00:00:00"
    nowDateTime := "2025-01-01 00:00:00"
    nowDate := "2025-01-01"
    nowCompact := "20250101"
    nextYearDate := "2026-01-01"
    md5hex6 := fun _ => "AAAAAA" }

/-- A parsed 401 response whose JSON body carries an `error.message`. -/
def body401 : ApiResponse :=
  { status := 401, content := "", usageTotalTokens := none,
    modelName := none, errorMessage := some "Invalid authentication" }

/-- A parsed 200 response without a `usage` object. -/
def body200 : ApiResponse :=
  { status := 200, content := "abcdefgh", usageTotalTokens := none,
    modelName := none, errorMessage := none }


/-- The per-key obligation of the prompt-builder property: every supplied
value appears verbatim, and `"N/A"` stands in for a missing key. -/
def coversKeys (prompt : String) (data : Data) (keys : List String) : Prop :=
  ∀ k ∈ keys,
    (∀ v, data.lookup k = some v → strContains prompt v) ∧
      (data.lookup k = none → strContains prompt "N/A")

/-- Substring containment is reflexive. -/
theorem strContains_refl (s : String) : strContains s s :=
  List.infix_refl s.data

/-- A substring of `s` is a substring of `s ++ t`. -/
theorem strContains_left {s n : String} (t : String) (h : strContains s n) :
    strContains (s ++ t) n := by
  unfold strContains at h ⊢
  rw [String.data_append]
  exact h.trans (List.prefix_append s.data t.data).isInfix

/-- A substring of `t` is a substring of `s ++ t`. -/
theorem strContains_right {t n : String} (s : String) (h : strContains t n) :
    strContains (s ++ t) n := by
  unfold strContains at h ⊢
  rw [String.data_append]
  exact h.trans (List.suffix_append s.data t.data).isInfix

/-- Appending on the right keeps a string nonempty. -/
theorem append_ne_empty_left {a : String} (b : String) (h : a ≠ "") :
    a ++ b ≠ "" := by
  intro he
  apply h
  have hd : (a ++ b).data = [] := by rw [he]
  rw [String.data_append] at hd
  exact String.ext (List.append_eq_nil.mp hd).1

/-- Rounding to four decimal places moves a rational by at most `1/20000`. -/
theorem abs_round4_sub_le (q : Rat) : |round4 q - q| ≤ 1 / 20000 := by
  have h : |(round (q * 10000) : Rat) - q * 10000| ≤ 1 / 2 := by
    have h0 := abs_sub_round (q * 10000)
    rwa [abs_sub_comm] at h0
  have he : round4 q - q = ((round (q * 10000) : Rat) - q * 10000) / 10000 := by
    unfold round4; ring
  rw [he, abs_div, abs_of_pos (show (0 : Rat) < 10000 by norm_num)]
  linarith

/-- Rounding to four decimal places preserves nonnegativity. -/
theorem round4_nonneg {q : Rat} (h : 0 ≤ q) : 0 ≤ round4 q := by
  unfold round4
  apply div_nonneg _ (by norm_num : (0 : Rat) ≤ 10000)
  have h1 : (0 : Int) ≤ round (q * 10000) := by
    rw [round_eq]
    apply Int.floor_nonneg.mpr
    nlinarith
  exact_mod_cast h1

/-- Any result `analyze` can return carries a nonnegative cost. -/
theorem analyze_cost_nonneg {key : Option String} {pt : String} {d : Data}
    {env : Env} {o : HttpOutcome} {r : CompletionResult}
    (h : analyze key pt d env o = some r) : 0 ≤ r.cost := by
  unfold analyze at h
  split at h
  · rcases Option.map_eq_some'.mp h with ⟨rep, _, rfl⟩
    norm_num
  · cases Option.some.inj h
    cases o with
    | response resp =>
      by_cases h200 : resp.status = 200
      · simp only [live_result, if_pos h200]
        exact round4_nonneg (by positivity)
      · simp only [live_result, if_neg h200]
        norm_num
    | timeout => norm_num [live_result]
    | error msg => norm_num [live_result]

/-- Containment of the `data.get(k, "N/A")` slot gives both halves of the
per-key obligation. -/
theorem covers_dget {prompt : String} {data : Data} {k : String}
    (h : strContains prompt (dget data k "N/A")) :
    (∀ v, data.lookup k = some v → strContains prompt v) ∧
      (data.lookup k = none → strContains prompt "N/A") := by
  unfold dget at h
  constructor
  · intro v hv; rw [hv] at h; exact h
  · intro hv; rw [hv] at h; exact h

/-- Every `data.get` slot of the incident user template is a substring of it. -/
theorem user_incident_covers (d : Data) :
    coversKeys (user_prompt_incident d) d ["description", "severity", "location", "date", "time"] := by
  intro k hk
  fin_cases hk
  · refine covers_dget ?_
    unfold user_prompt_incident
    exact strContains_left _ (strContains_left _ (strContains_left _ (strContains_left _ (strContains_left _ (strContains_left _ (strContains_left _ (strContains_left _ (strContains_left _ (strContains_right _ (strContains_refl _))))))))))
  · refine covers_dget ?_
    unfold user_prompt_incident
    exact strContains_left _ (strContains_left _ (strContains_left _ (strContains_left _ (strContains_left _ (strContains_left _ (strContains_left _ (strContains_right _ (strContains_refl _))))))))
  · refine covers_dget ?_
    unfold user_prompt_incident
    exact strContains_left _ (strContains_left _ (strContains_left _ (strContains_left _ (strContains_left _ (strContains_right _ (strContains_refl _))))))
  · refine covers_dget ?_
    unfold user_prompt_incident
    exact strContains_left _ (strContains_left _ (strContains_left _ (strContains_right _ (strContains_refl _))))
  · refine covers_dget ?_
    unfold user_prompt_incident
    exact strContains_left _ (strContains_right _ (strContains_refl _))

/-- The incident user template is nonempty. -/
theorem user_incident_ne_empty (d : Data) : user_prompt_incident d ≠ "" := by
  unfold user_prompt_incident
  repeat apply append_ne_empty_left
  decide

/-- Every `data.get` slot of the audit user template is a substring of it. -/
theorem user_audit_covers (d : Data) :
    coversKeys (user_prompt_audit d) d ["organization", "standards", "scope", "areas", "findings"] := by
  intro k hk
  fin_cases hk
  · refine covers_dget ?_
    unfold user_prompt_audit
    exact strContains_left _ (strContains_left _ (strContains_left _ (strContains_left _ (strContains_left _ (strContains_left _ (strContains_left _ (strContains_left _ (strContains_left _ (strContains_right _ (strContains_refl _))))))))))
  · refine covers_dget ?_
    unfold user_prompt_audit
    exact strContains_left _ (strContains_left _ (strContains_left _ (strContains_left _ (strContains_left _ (strContains_left _ (strContains_left _ (strContains_right _ (strContains_refl _))))))))
  · refine covers_dget ?_
    unfold user_prompt_audit
    exact strContains_left _ (strContains_left _ (strContains_left _ (strContains_left _ (strContains_left _ (strContains_right _ (strContains_refl _))))))
  · refine covers_dget ?_
    unfold user_prompt_audit
    exact strContains_left _ (strContains_left _ (strContains_left _ (strContains_right _ (strContains_refl _))))
  · refine covers_dget ?_
    unfold user_prompt_audit
    exact strContains_left _ (strContains_right _ (strContains_refl _))

/-- The audit user template is nonempty. -/
theorem user_audit_ne_empty (d : Data) : user_prompt_audit d ≠ "" := by
  unfold user_prompt_audit
  repeat apply append_ne_empty_left
  decide

/-- Every `data.get` slot of the policy user template is a substring of it. -/
theorem user_policy_covers (d : Data) :
    coversKeys (user_prompt_policy d) d ["policy_name", "policy_type", "industry", "jurisdiction", "content"] := by
  intro k hk
  fin_cases hk
  · refine covers_dget ?_
    unfold user_prompt_policy
    exact strContains_left _ (strContains_left _ (strContains_left _ (strContains_left _ (strContains_left _ (strContains_left _ (strContains_left _ (strContains_left _ (strContains_left _ (strContains_right _ (strContains_refl _))))))))))
  · refine covers_dget ?_
    unfold user_prompt_policy
    exact strContains_left _ (strContains_left _ (strContains_left _ (strContains_left _ (strContains_left _ (strContains_left _ (strContains_left _ (strContains_right _ (strContains_refl _))))))))
  · refine covers_dget ?_
    unfold user_prompt_policy
    exact strContains_left _ (strContains_left _ (strContains_left _ (strContains_left _ (strContains_left _ (strContains_right _ (strContains_refl _))))))
  · refine covers_dget ?_
    unfold user_prompt_policy
    exact strContains_left _ (strContains_left _ (strContains_left _ (strContains_right _ (strContains_refl _))))
  · refine covers_dget ?_
    unfold user_prompt_policy
    exact strContains_left _ (strContains_right _ (strContains_refl _))

/-- The policy user template is nonempty. -/
theorem user_policy_ne_empty (d : Data) : user_prompt_policy d ≠ "" := by
  unfold user_prompt_policy
  repeat apply append_ne_empty_left
  decide

/-- Every `data.get` slot of the esg user template is a substring of it. -/
theorem user_esg_covers (d : Data) :
    coversKeys (user_prompt_esg d) d ["organization", "industry", "period", "framework", "environmental", "social", "governance"] := by
  intro k hk
  fin_cases hk
  · refine covers_dget ?_
    unfold user_prompt_esg
    exact strContains_left _ (strContains_left _ (strContains_left _ (strContains_left _ (strContains_left _ (strContains_left _ (strContains_left _ (strContains_left _ (strContains_left _ (strContains_left _ (strContains_left _ (strContains_left _ (strContains_left _ (strContains_right _ (strContains_refl _))))))))))))))
  · refine covers_dget ?_
    unfold user_prompt_esg
    exact strContains_left _ (strContains_left _ (strContains_left _ (strContains_left _ (strContains_left _ (strContains_left _ (strContains_left _ (strContains_left _ (strContains_left _ (strContains_left _ (strContains_left _ (strContains_right _ (strContains_refl _))))))))))))
  · refine covers_dget ?_
    unfold user_prompt_esg
    exact strContains_left _ (strContains_left _ (strContains_left _ (strContains_left _ (strContains_left _ (strContains_left _ (strContains_left _ (strContains_left _ (strContains_left _ (strContains_right _ (strContains_refl _))))))))))
  · refine covers_dget ?_
    unfold user_prompt_esg
    exact strContains_left _ (strContains_left _ (strContains_left _ (strContains_left _ (strContains_left _ (strContains_left _ (strContains_left _ (strContains_right _ (strContains_refl _))))))))
  · refine covers_dget ?_
    unfold user_prompt_esg
    exact strContains_left _ (strContains_left _ (strContains_left _ (strContains_left _ (strContains_left _ (strContains_right _ (strContains_refl _))))))
  · refine covers_dget ?_
    unfold user_prompt_esg
    exact strContains_left _ (strContains_left _ (strContains_left _ (strContains_right _ (strContains_refl _))))
  · refine covers_dget ?_
    unfold user_prompt_esg
    exact strContains_left _ (strContains_right _ (strContains_refl _))

/-- The esg user template is nonempty. -/
theorem user_esg_ne_empty (d : Data) : user_prompt_esg d ≠ "" := by
  unfold user_prompt_esg
  repeat apply append_ne_empty_left
  decide


/-- C2: when the credential is absent (`None` or empty) or equals the
sentinel string `"demo"`, `DeepSeekClient.analyze` returns the
DemoResponder's result, for every network outcome alike — the HTTP POST is
never reached. -/
theorem analyze_demo_mode (key : Option String) (pt : String) (d : Data)
    (env : Env) (o : HttpOutcome)
    (h : key = none ∨ key = some "" ∨ key = some "demo") :
    analyze key pt d env o = get_demo_response pt d env := by
  have hc : key.getD "" = "" ∨ key.getD "" = "demo" := by
    rcases h with rfl | rfl | rfl
    · exact Or.inl rfl
    · exact Or.inl rfl
    · exact Or.inr rfl
  unfold analyze
  rw [if_pos hc]

/-- Witness for C2: the sentinel key with a timed-out transport still yields
the demo response. -/
theorem analyze_demo_mode_witness :
    analyze (some "demo") "incident"
      [("description", "Worker slipped on oil patch")] env0 .timeout =
    get_demo_response "incident"
      [("description", "Worker slipped on oil patch")] env0 :=
  analyze_demo_mode (some "demo") "incident"
    [("description", "Worker slipped on oil patch")] env0 .timeout
    (Or.inr (Or.inr rfl))

/-- C7: with a live key, a timeout produces the fixed timeout message, any
other transport exception produces `"Error: " ++ str(e)`, and no exception
message can collide with the timeout message — the two failure texts are
always distinct. -/
theorem timeout_message_distinct (key : Option String) (pt : String)
    (d : Data) (env : Env)
    (hk : ¬(key.getD "" = "" ∨ key.getD "" = "demo")) :
    analyze key pt d env .timeout = some
      { success := false, analysis := "Request timed out. Please try again.",
        tokens_used := 0, cost := 0, model := "deepseek-chat",
        timestamp := none } ∧
    (∀ msg, analyze key pt d env (.error msg) = some
      { success := false, analysis := "Error: " ++ msg,
        tokens_used := 0, cost := 0, model := "deepseek-chat",
        timestamp := none }) ∧
    (∀ msg, "Error: " ++ msg ≠ "Request timed out. Please try again.") := by
  refine ⟨?_, ?_, ?_⟩
  · unfold analyze
    rw [if_neg hk]
    rfl
  · intro msg
    unfold analyze
    rw [if_neg hk]
    rfl
  · intro msg h
    have h1 : ("Error: ".data ++ msg.data).head? = some 'E' := rfl
    have h2 := congrArg String.data h
    rw [String.data_append] at h2
    rw [h2] at h1
    exact absurd h1 (by decide)

/-- Witness for C7 at a concrete live key and exception message. -/
theorem timeout_message_distinct_witness :
    analyze (some "sk-live") "incident" [] env0 .timeout = some
      { success := false, analysis := "Request timed out. Please try again.",
        tokens_used := 0, cost := 0, model := "deepseek-chat",
        timestamp := none } ∧
    analyze (some "sk-live") "incident" [] env0 (.error "Connection refused") = some
      { success := false, analysis := "Error: " ++ "Connection refused",
        tokens_used := 0, cost := 0, model := "deepseek-chat",
        timestamp := none } ∧
    "Error: " ++ "Connection refused" ≠ "Request timed out. Please try again." := by
  have h := timeout_message_distinct (some "sk-live") "incident" [] env0 (by decide)
  exact ⟨h.1, h.2.1 "Connection refused", h.2.2 "Connection refused"⟩


/-- C6 (amended): on a non-200 status with a live key, `analyze` returns
`success = false`, zero tokens and cost, and the text
`"API Error: " ++ msg` where `msg` is the body's `error.message` when
present and `"HTTP <status>"` otherwise; only in the latter case is the
numeric status guaranteed to appear in the text.  The result is a function
of the single outcome — no retry exists. -/
theorem api_error_amended (key : Option String) (pt : String) (d : Data)
    (env : Env) (r : ApiResponse)
    (hk : ¬(key.getD "" = "" ∨ key.getD "" = "demo"))
    (hs : r.status ≠ 200) :
    analyze key pt d env (.response r) = some
      { success := false,
        analysis := "API Error: " ++
          r.errorMessage.getD ("HTTP " ++ toString r.status),
        tokens_used := 0, cost := 0, model := "deepseek-chat",
        timestamp := none } ∧
    (r.errorMessage = none →
      strContains
        ("API Error: " ++ r.errorMessage.getD ("HTTP " ++ toString r.status))
        (toString r.status)) := by
  constructor
  · unfold analyze
    rw [if_neg hk]
    simp only [live_result, if_neg hs]
  · intro he
    rw [he]
    exact strContains_right _ (strContains_right _ (strContains_refl _))

/-- Witness for C6 at a concrete 500 response with an empty body. -/
theorem api_error_amended_witness :
    analyze (some "sk-live") "audit" [] env0
      (.response { status := 500, content := "", usageTotalTokens := none,
                   modelName := none, errorMessage := none }) = some
      { success := false, analysis := "API Error: " ++ "HTTP 500",
        tokens_used := 0, cost := 0, model := "deepseek-chat",
        timestamp := none } ∧
    strContains ("API Error: " ++ "HTTP 500") "500" := by
  have h := api_error_amended (some "sk-live") "audit" [] env0
    { status := 500, content := "", usageTotalTokens := none,
      modelName := none, errorMessage := none } (by decide) (by decide)
  exact ⟨h.1, h.2 rfl⟩

/-- C6 counterexample: a 401 response whose body carries
`error.message = "Invalid authentication"` yields the text
`"API Error: Invalid authentication"`, which does not contain `"401"` —
the claim that the text contains the HTTP status fails. -/
theorem api_error_counterexample :
    analyze (some "sk-test") "incident" [] env0 (.response body401) = some
      { success := false, analysis := "API Error: Invalid authentication",
        tokens_used := 0, cost := 0, model := "deepseek-chat",
        timestamp := none } ∧
    ¬ strContains "API Error: Invalid authentication" "401" :=
  ⟨rfl, by decide⟩

/-- C3 (amended): on HTTP 200 without a usable `usage.total_tokens`, the
4-chars-per-token heuristic is applied to the response text alone:
`tokens_used = len(responseText) // 4`, the prompts are not included. -/
theorem token_fallback_amended (key : Option String) (pt : String) (d : Data)
    (env : Env) (r : ApiResponse)
    (hk : ¬(key.getD "" = "" ∨ key.getD "" = "demo"))
    (hs : r.status = 200) (hu : r.usageTotalTokens = none) :
    analyze key pt d env (.response r) = some
      { success := true, analysis := r.content,
        tokens_used := r.content.length / 4,
        cost := round4 (((r.content.length / 4 : Nat) : Rat) / 1000000 * (21 / 100)),
        model := r.modelName.getD "deepseek-chat",
        timestamp := some env.nowIso } := by
  unfold analyze
  rw [if_neg hk]
  simp only [live_result, if_pos hs, hu, Option.getD]

/-- Witness for C3 at a concrete 200 response lacking a usage object. -/
theorem token_fallback_amended_witness :
    analyze (some "sk-test") "incident" [] env0 (.response body200) = some
      { success := true, analysis := body200.content,
        tokens_used := body200.content.length / 4,
        cost := round4 (((body200.content.length / 4 : Nat) : Rat) / 1000000 * (21 / 100)),
        model := body200.modelName.getD "deepseek-chat",
        timestamp := some env0.nowIso } :=
  token_fallback_amended (some "sk-test") "incident" [] env0 body200
    (by decide) rfl rfl

/-- C3 counterexample: with the 8-character response `"abcdefgh"` and no
usage object the code computes 2 tokens, while the claimed formula over
system prompt, user prompt and response text combined gives a different
value. -/
theorem token_fallback_counterexample :
    (analyze (some "sk-test") "incident" [] env0 (.response body200)).map
        CompletionResult.tokens_used = some 2 ∧
    (get_system_prompt "incident" ++ get_user_prompt "incident" [] ++
        body200.content).length / 4 ≠ 2 := by
  constructor
  · rfl
  · decide

/-- C1 (amended): on the live-API success path the cost equals
`(tokensUsed / 1_000_000) * 0.21` up to the 4-decimal rounding error
`1/20000`; the demo path instead returns the fixed cost `0.01` whatever
`tokens_used` is, and does not satisfy the invariant. -/
theorem cost_invariant_amended :
    (∀ (key : Option String) (pt : String) (d : Data) (env : Env)
        (r : ApiResponse),
      ¬(key.getD "" = "" ∨ key.getD "" = "demo") → r.status = 200 →
      ∃ res, analyze key pt d env (.response r) = some res ∧
        res.success = true ∧
        |res.cost - (res.tokens_used : Rat) / 1000000 * (21 / 100)| ≤ 1 / 20000) ∧
    (∀ (pt : String) (d : Data) (env : Env) (res : CompletionResult),
      get_demo_response pt d env = some res → res.cost = 1 / 100) := by
  constructor
  · intro key pt d env r hk hs
    refine ⟨live_result env (.response r), ?_, ?_, ?_⟩
    · unfold analyze
      rw [if_neg hk]
    · simp only [live_result, if_pos hs]
    · simp only [live_result, if_pos hs]
      exact abs_round4_sub_le _
  · intro pt d env res h
    unfold get_demo_response at h
    rcases Option.map_eq_some'.mp h with ⟨rep, _, rfl⟩
    rfl

/-- Witness for C1: a live 200 response, and a demo response, at concrete
inputs. -/
theorem cost_invariant_amended_witness :
    (∃ res, analyze (some "sk-test") "incident" [] env0 (.response body200) = some res ∧
      res.success = true ∧
      |res.cost - (res.tokens_used : Rat) / 1000000 * (21 / 100)| ≤ 1 / 20000) ∧
    ({ success := true, analysis := "# Analysis Report\n\nDemo report generated.",
       tokens_used := 10, cost := 1 / 100, model := "deepseek-chat-demo",
       timestamp := some "2025-01-01T00:00:00" } : CompletionResult).cost = 1 / 100 :=
  ⟨cost_invariant_amended.1 (some "sk-test") "incident" [] env0 body200
      (by decide) rfl,
    cost_invariant_amended.2 "foo" [] env0 _ rfl⟩

/-- C1 counterexample: the demo response for an unknown request type has
10 tokens and cost `0.01`, while the invariant formula gives
`0.0000021` — the gap exceeds any reasonable epsilon (here `1/1000`). -/
theorem cost_invariant_demo_counterexample :
    get_demo_response "foo" [] env0 = some
      { success := true, analysis := "# Analysis Report\n\nDemo report generated.",
        tokens_used := 10, cost := 1 / 100, model := "deepseek-chat-demo",
        timestamp := some "2025-01-01T00:00:00" } ∧
    ¬ |(1 / 100 : Rat) - (10 : Rat) / 1000000 * (21 / 100)| ≤ 1 / 1000 := by
  constructor
  · rfl
  · rw [show (1 / 100 : Rat) - (10 : Rat) / 1000000 * (21 / 100) = 99979 / 10000000 by norm_num,
      abs_of_pos (by norm_num : (0 : Rat) < 99979 / 10000000)]
    norm_num


/-- C4 (amended): `get_demo_response` returns normally with `success = true`
and a nonempty report for every request type and field mapping, except that
for the incident type the (possibly defaulted) severity value must split on
`'-'` into at least two chunks — `severity.split('-')[1]` raises
`IndexError` otherwise. -/
theorem demo_response_total_amended (pt : String) (d : Data) (env : Env)
    (h : pt = "incident" → ∃ a b l,
      splitOnChar '-' (dget d "severity" "3 - Serious").data = a :: b :: l) :
    ∃ res, get_demo_response pt d env = some res ∧ res.success = true ∧
      res.analysis ≠ "" := by
  by_cases hp : pt = "incident"
  · subst hp
    obtain ⟨a, b, l, hs⟩ := h rfl
    unfold get_demo_response
    rw [if_pos rfl]
    simp only [generate_incident_demo]
    rw [hs]
    refine ⟨_, rfl, rfl, ?_⟩
    repeat apply append_ne_empty_left
    decide
  · unfold get_demo_response
    rw [if_neg hp]
    by_cases ha : pt = "audit"
    · rw [if_pos ha]
      refine ⟨_, rfl, rfl, ?_⟩
      simp only [generate_audit_demo]
      repeat apply append_ne_empty_left
      decide
    · rw [if_neg ha]
      by_cases hpo : pt = "policy"
      · rw [if_pos hpo]
        refine ⟨_, rfl, rfl, ?_⟩
        simp only [generate_policy_demo]
        repeat apply append_ne_empty_left
        decide
      · rw [if_neg hpo]
        by_cases he : pt = "esg"
        · rw [if_pos he]
          refine ⟨_, rfl, rfl, ?_⟩
          simp only [generate_esg_demo]
          repeat apply append_ne_empty_left
          decide
        · rw [if_neg he]
          refine ⟨_, rfl, rfl, ?_⟩
          show ("# Analysis Report\n\nDemo report generated." : String) ≠ ""
          decide

/-- Witness for C4: the default severity `"3 - Serious"` splits into two
chunks, so the incident demo response exists and is a nonempty success. -/
theorem demo_response_total_amended_witness :
    ∃ res, get_demo_response "incident" [] env0 = some res ∧
      res.success = true ∧ res.analysis ≠ "" :=
  demo_response_total_amended "incident" [] env0
    (fun _ => ⟨"3 ".data, " Serious".data, [], by decide⟩)

/-- C4 counterexample: a severity value without a dash
(`severity = "High"`) makes `_generate_incident_demo` raise `IndexError`
(modelled `none`): `get_demo_response` does not return normally, against
the claim that it tolerates arbitrary severity strings. -/
theorem demo_response_counterexample :
    get_demo_response "incident" [("severity", "High")] env0 = none := rfl

/-- C5: recording a failed result leaves all three usage counters unchanged;
recording N successful results adds N to `total_reports` and the exact sums
of their costs and token counts to `total_cost` and `total_tokens`; and
recording any result the pipeline can produce never decreases a counter. -/
theorem usage_accumulator_spec :
    (∀ (s : UsageStats) (r : CompletionResult),
      r.success = false → record_result s r = s) ∧
    (∀ (s : UsageStats) (rs : List CompletionResult),
      (∀ r ∈ rs, r.success = true) →
      (record_all s rs).total_reports = s.total_reports + rs.length ∧
      (record_all s rs).total_cost =
        s.total_cost + (rs.map CompletionResult.cost).sum ∧
      (record_all s rs).total_tokens =
        s.total_tokens + (rs.map CompletionResult.tokens_used).sum) ∧
    (∀ (s : UsageStats) (key : Option String) (pt : String) (d : Data)
        (env : Env) (o : HttpOutcome) (r : CompletionResult),
      analyze key pt d env o = some r → statsLe s (record_result s r)) := by
  refine ⟨?_, ?_, ?_⟩
  · intro s r h
    unfold record_result
    rw [h]
    rfl
  · intro s rs
    induction rs generalizing s with
    | nil => intro _; refine ⟨?_, ?_, ?_⟩ <;> simp [record_all]
    | cons r rs ih =>
      intro h
      have hr : r.success = true := h r (List.mem_cons_self r rs)
      have hrec : record_result s r =
          { total_reports := s.total_reports + 1
            total_cost := s.total_cost + r.cost
            total_tokens := s.total_tokens + r.tokens_used } := by
        unfold record_result
        rw [hr]
        rfl
      have hall : record_all s (r :: rs) = record_all (record_result s r) rs := rfl
      obtain ⟨h1, h2, h3⟩ := ih (record_result s r)
        (fun x hx => h x (List.mem_cons_of_mem r hx))
      refine ⟨?_, ?_, ?_⟩
      · rw [hall, h1, hrec]
        simp [List.length_cons]
        omega
      · rw [hall, h2, hrec]
        simp [List.map_cons, List.sum_cons]
        ring
      · rw [hall, h3, hrec]
        simp [List.map_cons, List.sum_cons]
        omega
  · intro s key pt d env o r hr
    have hc : 0 ≤ r.cost := analyze_cost_nonneg hr
    unfold record_result statsLe
    by_cases h : r.success = true
    · rw [if_pos h]
      refine ⟨Nat.le_succ _, ?_, Nat.le_add_right _ _⟩
      dsimp only
      linarith
    · rw [if_neg h]
      exact ⟨le_refl _, le_refl _, le_refl _⟩

/-- Witness for C5: a concrete failed record, a concrete success list, and a
concrete pipeline result. -/
theorem usage_accumulator_spec_witness :
    record_result ⟨3, 1 / 2, 700⟩
      { success := false, analysis := "API Error: HTTP 500",
        tokens_used := 9, cost := 2, model := "deepseek-chat",
        timestamp := none } = ⟨3, 1 / 2, 700⟩ ∧
    (record_all ⟨0, 0, 0⟩
        [{ success := true, analysis := "a", tokens_used := 5, cost := 1 / 4,
           model := "m", timestamp := none },
         { success := true, analysis := "b", tokens_used := 7, cost := 1 / 2,
           model := "m", timestamp := none }]).total_cost =
      0 + ([{ success := true, analysis := "a", tokens_used := 5, cost := 1 / 4,
              model := "m", timestamp := none },
            { success := true, analysis := "b", tokens_used := 7, cost := 1 / 2,
              model := "m", timestamp := none }].map CompletionResult.cost).sum ∧
    statsLe ⟨3, 1 / 2, 700⟩ (record_result ⟨3, 1 / 2, 700⟩
      { success := true, analysis := "# Analysis Report\n\nDemo report generated.",
        tokens_used := 10, cost := 1 / 100, model := "deepseek-chat-demo",
        timestamp := some "2025-01-01T00:00:00" }) := by
  refine ⟨?_, ?_, ?_⟩
  · exact usage_accumulator_spec.1 _ _ rfl
  · exact (usage_accumulator_spec.2.1 _ _ (by intro r hr; fin_cases hr <;> rfl)).2.1
  · exact usage_accumulator_spec.2.2 _ (some "demo") "foo" [] env0 .timeout _ rfl


/-- C8 (amended): for each of the four request types, the system and user
prompts are nonempty and, for every key of that type's own template, a
supplied value appears verbatim in the user prompt while an omitted key is
rendered as the literal `"N/A"`.  (Keys outside the template, such as the
incident form's `reported_by`, do not appear — see the counterexample.) -/
theorem prompt_builder_amended (d : Data) :
    (get_system_prompt "incident" ≠ "" ∧ get_user_prompt "incident" d ≠ "" ∧
      coversKeys (get_user_prompt "incident" d) d
        ["description", "severity", "location", "date", "time"]) ∧
    (get_system_prompt "audit" ≠ "" ∧ get_user_prompt "audit" d ≠ "" ∧
      coversKeys (get_user_prompt "audit" d) d
        ["organization", "standards", "scope", "areas", "findings"]) ∧
    (get_system_prompt "policy" ≠ "" ∧ get_user_prompt "policy" d ≠ "" ∧
      coversKeys (get_user_prompt "policy" d) d
        ["policy_name", "policy_type", "industry", "jurisdiction", "content"]) ∧
    (get_system_prompt "esg" ≠ "" ∧ get_user_prompt "esg" d ≠ "" ∧
      coversKeys (get_user_prompt "esg" d) d
        ["organization", "industry", "period", "framework", "environmental",
         "social", "governance"]) := by
  refine ⟨⟨?_, ?_, ?_⟩, ⟨?_, ?_, ?_⟩, ⟨?_, ?_, ?_⟩, ?_, ?_, ?_⟩
  · decide
  · exact user_incident_ne_empty d
  · exact user_incident_covers d
  · decide
  · exact user_audit_ne_empty d
  · exact user_audit_covers d
  · decide
  · exact user_policy_ne_empty d
  · exact user_policy_covers d
  · decide
  · exact user_esg_ne_empty d
  · exact user_esg_covers d

/-- Witness for C8: a supplied severity value appears verbatim, and the
omitted description is rendered as `"N/A"`. -/
theorem prompt_builder_amended_witness :
    strContains (get_user_prompt "incident" [("severity", "4 - Severe")])
      "4 - Severe" ∧
    strContains (get_user_prompt "incident" [("severity", "4 - Severe")])
      "N/A" := by
  have h := (prompt_builder_amended [("severity", "4 - Severe")]).1.2.2
  constructor
  · exact (h "severity" (by decide)).1 "4 - Severe" rfl
  · exact (h "description" (by decide)).2 rfl

/-- C8 counterexample: the incident form supplies `reported_by`, but the
prompt builder interpolates neither prompt with it — a supplied field value
that does not appear verbatim. -/
theorem prompt_builder_counterexample :
    ([("reported_by", "ZXQWV")] : Data).lookup "reported_by" = some "ZXQWV" ∧
    ¬ strContains (get_user_prompt "incident" [("reported_by", "ZXQWV")])
        "ZXQWV" ∧
    ¬ strContains (get_system_prompt "incident") "ZXQWV" := by
  refine ⟨rfl, ?_, ?_⟩ <;> decide

/-- C9: submitting the incident form with a description shorter than 20
characters after stripping (in particular empty), or with an empty location,
returns no form data, and `main` therefore performs no completion call. -/
theorem incident_validation_blocks (preview submit demo_mode : Bool)
    (api_key : Option String)
    (description severity location date time reported_by witnesses : String)
    (hp : preview = false) (hs : submit = true)
    (hv : (pyStrip description).length < 20 ∨ location = "") :
    render_incident_form preview submit demo_mode api_key description
      severity location date time reported_by witnesses = none ∧
    main_process "incident"
      (render_incident_form preview submit demo_mode api_key description
        severity location date time reported_by witnesses) =
      MainAction.noCall := by
  subst hp hs
  have hr : render_incident_form false true demo_mode api_key description
      severity location date time reported_by witnesses = none := by
    unfold render_incident_form
    by_cases hk : !demo_mode && api_key.getD "" = ""
    · simp [hk]
    · rcases hv with h | h
      · have hd : description = "" ∨ (pyStrip description).length < 20 :=
          Or.inr h
        simp [hk, hd]
      · by_cases hd : description = "" ∨ (pyStrip description).length < 20
        · simp [hk, hd]
        · simp [hk, hd, h]
  exact ⟨hr, by rw [hr]; rfl⟩

/-- Witness for C9: the empty description blocks the submission. -/
theorem incident_validation_blocks_witness :
    render_incident_form false true true none "" "3 - Serious" "Plant B"
      "2025-01-01" "08:00" "" "" = none ∧
    main_process "incident"
      (render_incident_form false true true none "" "3 - Serious" "Plant B"
        "2025-01-01" "08:00" "" "") = MainAction.noCall :=
  incident_validation_blocks false true true none "" "3 - Serious" "Plant B"
    "2025-01-01" "08:00" "" "" rfl rfl (Or.inl (by decide))

/-- C10: any unknown `prompt_type` falls back to defaults throughout the
pipeline: the incident system prompt, the fixed user prompt
`"Please analyze this data."`, and the generic demo report with
`success = true`. -/
theorem unknown_type_fallback (pt : String) (d : Data) (env : Env)
    (h1 : pt ≠ "incident") (h2 : pt ≠ "audit") (h3 : pt ≠ "policy")
    (h4 : pt ≠ "esg") :
    get_system_prompt pt = get_system_prompt "incident" ∧
    get_user_prompt pt d = "Please analyze this data." ∧
    get_demo_response pt d env = some
      { success := true,
        analysis := "# Analysis Report\n\nDemo report generated.",
        tokens_used := "# Analysis Report\n\nDemo report generated.".length / 4,
        cost := 1 / 100, model := "deepseek-chat-demo",
        timestamp := some env.nowIso } := by
  refine ⟨?_, ?_, ?_⟩
  · unfold get_system_prompt
    rw [if_neg h1, if_neg h2, if_neg h3, if_neg h4]
    rfl
  · unfold get_user_prompt
    rw [if_neg h1, if_neg h2, if_neg h3, if_neg h4]
  · unfold get_demo_response
    rw [if_neg h1, if_neg h2, if_neg h3, if_neg h4]
    rfl

/-- Witness for C10 at the unknown type `"summary"`. -/
theorem unknown_type_fallback_witness :
    get_system_prompt "summary" = get_system_prompt "incident" ∧
    get_user_prompt "summary" [] = "Please analyze this data." ∧
    get_demo_response "summary" [] env0 = some
      { success := true,
        analysis := "# Analysis Report\n\nDemo report generated.",
        tokens_used := "# Analysis Report\n\nDemo report generated.".length / 4,
        cost := 1 / 100, model := "deepseek-chat-demo",
        timestamp := some env0.nowIso } :=
  unknown_type_fallback "summary" [] env0 (by decide) (by decide) (by decide)
    (by decide)

end ESGMonitor
